import Mathlib

/-
Verification of the CarBrain RAG repository: a shallow embedding of the
retrieval pipeline (app/rag_processor.py, app/main.py), the document
loaders (app/document_loader.py) and the document downloader
(app/download_docs.py), together with theorems settling the behavioural
claims about the system.

External library calls (langchain text splitter, HuggingFace embeddings,
FAISS similarity search, unstructured partitioners, pytesseract OCR) are
not part of the repository source; where a claim depends on their
behaviour they are modelled from the specification, and that is recorded
in the doc comment of the corresponding definition.
-/

namespace CarBrain

/-- A metadata mapping. In the source every loader constructs it as a
dictionary with the single key source, so it is modelled as a structure
with that one field. -/
structure Metadata where
  source : String

deriving instance DecidableEq for Metadata

/-- langchain.schema.Document: raw text plus a metadata mapping. -/
structure Document where
  page_content : String
  metadata : Metadata

deriving instance DecidableEq for Document

/-! ## Text Chunker

rag_processor.py constructs RecursiveCharacterTextSplitter with
chunk_size 1000 and chunk_overlap 200.  The splitter itself is a
langchain library class, not repository source. -/

/-- The chunk_size configured in RAGProcessor (rag_processor.py line 12). -/
def rag_chunk_size : Nat := 1000

/-- The chunk_overlap configured in RAGProcessor (rag_processor.py line 13). -/
def rag_chunk_overlap : Nat := 200

/-- Fuel-indexed worker for the chunker, structurally recursive so that
concrete inputs evaluate in the kernel.  With fuel at least the length of
the input this computes the fixed-offset chunking. -/
def split_chunks_fuel (size ov : Nat) : Nat → List Char → List (List Char)
  | 0, _ => []
  | fuel + 1, t =>
    if t.isEmpty then []
    else if t.length ≤ size ∨ size ≤ ov then [t]
    else t.take size :: split_chunks_fuel size ov fuel (t.drop (size - ov))

/-- Modelled from the spec: the Text Chunker (the configured langchain
RecursiveCharacterTextSplitter is library code, absent from the
repository source).  Fixed-offset strategy of section 4.1: empty input
yields an empty chunk sequence; a text no longer than the target size is
a single chunk; otherwise the first chunk is the first size characters
and chunking continues from offset size - ov, so consecutive chunks
overlap by ov characters.  A degenerate configuration with ov at least
size returns the whole text as one chunk. -/
def split_chunks (size ov : Nat) (t : List Char) : List (List Char) :=
  split_chunks_fuel size ov t.length t

/-- The unique spans of a chunk sequence: the first chunk whole, every
later chunk with its leading overlap removed, concatenated. -/
def unique_concat (ov : Nat) : List (List Char) → List Char
  | [] => []
  | c :: cs => c ++ (cs.map (List.drop ov)).flatten

/-- Splitting one text with the configured splitter, as strings. -/
def split_text (s : String) : List String :=
  (split_chunks rag_chunk_size rag_chunk_overlap s.toList).map (fun c => String.mk c)

/-- text_splitter.split_documents: every document is split and each chunk
inherits the owning document's metadata. -/
def split_documents (docs : List Document) : List Document :=
  (docs.map (fun d => (split_text d.page_content).map
    (fun s => Document.mk s d.metadata))).flatten

/-! ## Embedder and Vector Index

The embedding model and FAISS are external; rag_processor.py calls
FAISS.from_documents and similarity_search.  The index is modelled from
the spec, section 4.3. -/

/-- An embedding vector.  Components are modelled as integers so that
distances are exactly computable. -/
abbrev Vec := List Int

/-- Squared L2 distance between two vectors of the same dimensionality. -/
def sq_dist (u v : Vec) : Int :=
  ((u.zip v).map (fun p => (p.1 - p.2) * (p.1 - p.2))).sum

/-- Modelled from the spec: the Vector Index holds (vector, chunk,
metadata) triples in insertion order, together with the embedding
function used for queries (FAISS itself is library code, absent from the
repository source). -/
structure FAISSStore where
  embed_fn : String → Except String Vec
  entries : List (Vec × Document)

/-- Embed every chunk in order; the first embedding failure propagates,
as a raised exception does in FAISS.from_documents. -/
def embed_entries (embed : String → Except String Vec) :
    List Document → Except String (List (Vec × Document))
  | [] => .ok []
  | d :: ds =>
    match embed d.page_content with
    | .error e => .error e
    | .ok v =>
      match embed_entries embed ds with
      | .error e => .error e
      | .ok rest => .ok ((v, d) :: rest)

/-- FAISS.from_documents: embed all chunks and build the index. -/
def from_documents (embed : String → Except String Vec) (docs : List Document) :
    Except String FAISSStore :=
  match embed_entries embed docs with
  | .error e => .error e
  | .ok es => .ok ⟨embed, es⟩

/-- RAGProcessor.process_documents (rag_processor.py lines 16 to 20):
split the documents, then embed and store them.  There is no per-document
error handling in the source; an embedding failure propagates. -/
def process_documents (embed : String → Except String Vec)
    (documents : List Document) : Except String FAISSStore :=
  from_documents embed (split_documents documents)

/-- Ranking preorder on indexed entries: strictly smaller distance first,
ties broken by insertion order (spec, section 4.3). -/
def rank_le (q : Vec) (a b : Nat × (Vec × Document)) : Prop :=
  sq_dist q a.2.1 < sq_dist q b.2.1 ∨
    (sq_dist q a.2.1 = sq_dist q b.2.1 ∧ a.1 ≤ b.1)

instance rank_le_decidable (q : Vec) : DecidableRel (rank_le q) := fun a b => by
  unfold rank_le; infer_instance

/-- Modelled from the spec: search returns the k entries closest to the
query vector in ascending distance order, ties broken by insertion order,
and all entries when the index holds fewer than k. -/
def search_index (entries : List (Vec × Document)) (q : Vec) (k : Nat) :
    List Document :=
  ((entries.enum.insertionSort (rank_le q)).map (fun e => e.2.2)).take k

/-- vectorstore.similarity_search: embed the question, then search; a
failing question embedding propagates as an exception. -/
def similarity_search (st : FAISSStore) (question : String) (k : Nat) :
    Except String (List Document) :=
  match st.embed_fn question with
  | .error e => .error e
  | .ok q => .ok (search_index st.entries q k)

/-- RAGProcessor.query (rag_processor.py lines 22 to 24) with its default
k of 3. -/
def query (vs : FAISSStore) (question : String) (k : Nat := 3) :
    Except String (List Document) :=
  similarity_search vs question k

/-! ## FastAPI endpoint (main.py) -/

/-- fastapi.HTTPException as raised by main.py: a status code and a
textual detail. -/
structure HTTPException where
  status_code : Nat
  detail : String

deriving instance DecidableEq for HTTPException

/-- The response body of the ask endpoint. -/
structure Answer where
  answer : String

deriving instance DecidableEq for Answer

/-- The detail string of the Python NameError raised on main.py line 17,
where the global vectorstore is referenced but never defined.  The Python
message quotes the variable name; the quotes are omitted here. -/
def name_error_detail : String := "name vectorstore is not defined"

/-- The detail string of the Python IndexError raised by docs[0] on
main.py line 18 when the retrieval returns no documents. -/
def index_error_detail : String := "list index out of range"

/-- ask_question (main.py lines 14 to 20).  The module-level name
vectorstore is never assigned in main.py, so it is modelled as an
optional binding: none means the name is undefined and referencing it
raises a NameError.  Every exception raised in the try block is caught
and re-raised as an HTTPException with status 500 and the textual detail
of the exception, which FastAPI surfaces to the caller as a single error
response; the process itself keeps running, which the total Except return
type reflects. -/
def ask_question (vectorstore : Option FAISSStore) (question : String) :
    Except HTTPException Answer :=
  match vectorstore with
  | none => .error ⟨500, name_error_detail⟩
  | some vs =>
    match query vs question with
    | .error e => .error ⟨500, e⟩
    | .ok [] => .error ⟨500, index_error_detail⟩
    | .ok (d :: _) => .ok ⟨d.page_content⟩

/-! ## Document loaders (document_loader.py) -/

/-- An element produced by an unstructured partitioner: its category,
its text, and (for images) the path recorded in its metadata. -/
structure Element where
  category : String
  text : String
  image_path : String

/-- extract_text_from_image (document_loader.py lines 11 to 17): run the
external OCR (modelled as a fallible function from image path to text);
on success return its text, on any exception log and return the empty
string.  The total String return type reflects that no exception ever
propagates out of this function. -/
def extract_text_from_image (ocr : String → Except String String)
    (img_path : String) : String :=
  match ocr img_path with
  | .ok s => s
  | .error _ => ""

/-- The per-element content built by load_pdf_with_tables_images. -/
def pdf_element_text (ocr : String → Except String String) (elem : Element) :
    String :=
  if elem.category = "Table" then "TABLE:\n" ++ elem.text
  else if elem.category = "Image" then
    "IMAGE_DESCRIPTION:\n" ++ extract_text_from_image ocr elem.image_path
  else elem.text

/-- load_pdf_with_tables_images (document_loader.py lines 19 to 39),
parametrised by the external partitioner's output and the OCR. -/
def load_pdf_with_tables_images (ocr : String → Except String String)
    (elements : List Element) (pdf_path : String) : List Document :=
  [⟨String.intercalate "\n\n" (elements.map (pdf_element_text ocr)),
    ⟨pdf_path⟩⟩]

/-- load_docx_with_tables (document_loader.py lines 41 to 46). -/
def load_docx_with_tables (elements : List Element) (docx_path : String) :
    List Document :=
  let tables := (elements.filter (fun e => e.category = "Table")).map
    (fun e => e.text)
  let text := (elements.filter (fun e => e.category ≠ "Table")).map
    (fun e => e.text)
  [⟨String.intercalate "\n\n"
      (text ++ tables.map (fun t => "TABLE:\n" ++ t)),
    ⟨docx_path⟩⟩]

/-- load_csv_autoparts (document_loader.py lines 48 to 51), parametrised
by the markdown rendering of the parsed CSV. -/
def load_csv_autoparts (df_markdown : String) (csv_path : String) :
    List Document :=
  [⟨"CAR PARTS DATA:\n" ++ df_markdown, ⟨csv_path⟩⟩]

/-- load_pptx_slides (document_loader.py lines 53 to 56). -/
def load_pptx_slides (elements : List Element) (pptx_path : String) :
    List Document :=
  [⟨String.intercalate "\n\n" (elements.map (fun e => e.text)), ⟨pptx_path⟩⟩]

/-! ## Document downloader (download_docs.py) -/

/-- The outcome of one fallback attempt in download_with_fallbacks: the
inner download_file call returns true or false (it catches its own
exceptions), or some statement of the try block raises. -/
inductive AttemptOutcome
  | success
  | failure
  | raised

deriving instance DecidableEq for AttemptOutcome

/-- The mutable per-session state touched by download_with_fallbacks: the
User-Agent header of the shared requests session. -/
structure Session where
  user_agent : String

deriving instance DecidableEq for Session

/-- The alternate user agents tried by download_with_fallbacks
(download_docs.py lines 107 to 111). -/
def fallback_user_agents : List String :=
  ["Mozilla/5.0 (Windows NT 10.0; Win64; x64) AppleWebKit/537.36",
   "Mozilla/5.0 (Macintosh; Intel Mac OS X 10_15_7) AppleWebKit/537.36",
   "Mozilla/5.0 (X11; Linux x86_64) AppleWebKit/537.36"]

/-- The fallback loop of download_with_fallbacks (download_docs.py lines
113 to 125).  Each iteration saves the current header into old_ua, sets
the header to the candidate user agent, runs the attempt (whose outcome
may depend on the header in effect), and on success, failure and
exception alike writes old_ua back before returning or continuing. -/
def download_fallback_loop (df : String → AttemptOutcome) :
    List String → Session → Bool × Session
  | [], s => (false, s)
  | ua :: rest, s =>
    let old_ua := s.user_agent
    let s1 : Session := ⟨ua⟩
    match df s1.user_agent with
    | .success => (true, ⟨old_ua⟩)
    | .failure => download_fallback_loop df rest ⟨old_ua⟩
    | .raised => download_fallback_loop df rest ⟨old_ua⟩

/-- download_with_fallbacks (download_docs.py lines 100 to 127): first
try with the session's current header (download_file catches its own
exceptions, so a non-success here just falls through), then the fallback
loop over the alternate user agents. -/
def download_with_fallbacks (df : String → AttemptOutcome) (s : Session) :
    Bool × Session :=
  if df s.user_agent = .success then (true, s)
  else download_fallback_loop df fallback_user_agents s

/-! ## Helper predicates and helper lemmas -/

/-- Whether an Except value is a success. -/
def is_ok {ε α : Type} : Except ε α → Bool
  | .ok _ => true
  | .error _ => false

/-- embed_entries succeeds exactly when every chunk embeds successfully. -/
lemma embed_entries_is_ok (embed : String → Except String Vec) :
    ∀ l : List Document,
      is_ok (embed_entries embed l) =
        l.all (fun d => is_ok (embed d.page_content)) := by
  intro l
  induction l with
  | nil => rfl
  | cons d ds ih =>
    unfold embed_entries
    cases h : embed d.page_content with
    | error e => simp only [List.all_cons, h, is_ok, Bool.false_and]
    | ok v =>
      have hds := ih
      cases h2 : embed_entries embed ds with
      | error e =>
        rw [h2] at hds
        simp only [is_ok] at hds
        simp only [List.all_cons, h, is_ok, ← hds, Bool.and_false]
      | ok rest =>
        rw [h2] at hds
        simp only [is_ok] at hds
        simp only [List.all_cons, h, is_ok, ← hds, Bool.and_true]

/-- The fallback loop restores the session it was given. -/
lemma download_fallback_loop_state (df : String → AttemptOutcome) :
    ∀ (uas : List String) (s : Session),
      (download_fallback_loop df uas s).2 = s := by
  intro uas
  induction uas with
  | nil => intro s; rfl
  | cons ua rest ih =>
    intro s
    unfold download_fallback_loop
    cases h : df ua <;> simp only [h] <;>
      first
        | rfl
        | exact ih ⟨s.user_agent⟩

/-- Flattening the chunks with their leading overlap removed recovers the
input text with its leading overlap removed. -/
lemma split_chunks_fuel_drop_flatten (size ov : Nat) (hov : ov < size) :
    ∀ (fuel : Nat) (t : List Char), t.length ≤ fuel →
      ((split_chunks_fuel size ov fuel t).map (List.drop ov)).flatten =
        t.drop ov := by
  intro fuel
  induction fuel with
  | zero =>
    intro t ht
    have hnil : t = [] := List.eq_nil_of_length_eq_zero (Nat.le_zero.mp ht)
    subst hnil
    simp [split_chunks_fuel]
  | succ fuel ih =>
    intro t ht
    unfold split_chunks_fuel
    rcases t with _ | ⟨c, t'⟩
    · simp
    · by_cases hlen : (c :: t').length ≤ size
      · simp only [List.isEmpty_cons, Bool.false_eq_true, if_false,
          if_pos (Or.inl hlen), List.map_cons, List.map_nil,
          List.flatten_cons, List.flatten_nil, List.append_nil]
      · have hc : ¬((c :: t').length ≤ size ∨ size ≤ ov) := by omega
        simp only [List.isEmpty_cons, Bool.false_eq_true, if_false,
          if_neg hc, List.map_cons, List.flatten_cons]
        have hrec : ((c :: t').drop (size - ov)).length ≤ fuel := by
          rw [List.length_drop]
          omega
        rw [ih _ hrec, List.drop_take, List.drop_drop]
        exact List.drop_take_append_drop' (c :: t') ov (size - ov)

/-- Concatenating the first chunk with the overlap-stripped later chunks
recovers the input text. -/
lemma split_chunks_fuel_reconstruct (size ov : Nat) (hov : ov < size)
    (fuel : Nat) (t : List Char) (ht : t.length ≤ fuel) :
    unique_concat ov (split_chunks_fuel size ov fuel t) = t := by
  cases fuel with
  | zero =>
    have hnil : t = [] := List.eq_nil_of_length_eq_zero (Nat.le_zero.mp ht)
    subst hnil
    rfl
  | succ fuel =>
    unfold split_chunks_fuel
    rcases t with _ | ⟨c, t'⟩
    · rfl
    · by_cases hlen : (c :: t').length ≤ size
      · simp only [List.isEmpty_cons, Bool.false_eq_true, if_false,
          if_pos (Or.inl hlen), unique_concat, List.map_nil,
          List.flatten_nil, List.append_nil]
      · have hc : ¬((c :: t').length ≤ size ∨ size ≤ ov) := by omega
        simp only [List.isEmpty_cons, Bool.false_eq_true, if_false,
          if_neg hc, unique_concat]
        have hrec : ((c :: t').drop (size - ov)).length ≤ fuel := by
          rw [List.length_drop]
          omega
        rw [split_chunks_fuel_drop_flatten size ov hov fuel _ hrec,
          List.drop_drop, Nat.sub_add_cancel (Nat.le_of_lt hov)]
        exact List.take_append_drop size (c :: t')

/-- A nonempty text's chunk sequence starts with the text's first size
characters. -/
lemma split_chunks_fuel_head (size ov : Nat) (hov : ov < size) (fuel : Nat)
    (t : List Char) (ht : t.length ≤ fuel) (hne : t ≠ []) :
    ∃ cs, split_chunks_fuel size ov fuel t = t.take size :: cs := by
  cases fuel with
  | zero =>
    rcases t with _ | ⟨c, t'⟩
    · exact absurd rfl hne
    · simp at ht
  | succ fuel =>
    unfold split_chunks_fuel
    rcases t with _ | ⟨c, t'⟩
    · exact absurd rfl hne
    · by_cases hlen : (c :: t').length ≤ size
      · refine ⟨[], ?_⟩
        rw [if_neg (by simp), if_pos (Or.inl hlen),
          List.take_of_length_le hlen]
      · have hc : ¬((c :: t').length ≤ size ∨ size ≤ ov) := by omega
        refine ⟨split_chunks_fuel size ov fuel ((c :: t').drop (size - ov)), ?_⟩
        rw [if_neg (by simp), if_neg hc]

/-- Every chunk that has a successor has length exactly size and agrees
with its successor on the overlap. -/
lemma split_chunks_fuel_chain (size ov : Nat) (hov : ov < size) :
    ∀ (fuel : Nat) (t : List Char), t.length ≤ fuel →
      List.Chain'
        (fun a b => a.drop (a.length - ov) = b.take ov ∧ a.length = size)
        (split_chunks_fuel size ov fuel t) := by
  intro fuel
  induction fuel with
  | zero =>
    intro t ht
    exact List.chain'_nil
  | succ fuel ih =>
    intro t ht
    unfold split_chunks_fuel
    rcases t with _ | ⟨c, t'⟩
    · simp
    · by_cases hlen : (c :: t').length ≤ size
      · rw [if_neg (by simp), if_pos (Or.inl hlen)]
        exact List.chain'_singleton _
      · have hc : ¬((c :: t').length ≤ size ∨ size ≤ ov) := by omega
        rw [if_neg (by simp), if_neg hc]
        have hrec : ((c :: t').drop (size - ov)).length ≤ fuel := by
          rw [List.length_drop]
          omega
        have hlend : ((c :: t').drop (size - ov)).length =
            (c :: t').length - (size - ov) := by
          rw [List.length_drop]
        have hne : (c :: t').drop (size - ov) ≠ [] := by
          intro h0
          rw [h0] at hlend
          simp only [List.length_nil] at hlend
          omega
        obtain ⟨cs, hcs⟩ := split_chunks_fuel_head size ov hov fuel _ hrec hne
        rw [hcs]
        refine List.Chain'.cons ?_ ?_
        · constructor
          · have hlt : ((c :: t').take size).length = size := by
              rw [List.length_take]
              omega
            rw [hlt, List.drop_take, Nat.sub_sub_self (Nat.le_of_lt hov),
              List.take_take, Nat.min_eq_left (Nat.le_of_lt hov)]
          · rw [List.length_take]
            omega
        · rw [← hcs]
          exact ih _ hrec

/-- Chunking the empty text gives no chunks, whatever the fuel. -/
lemma split_chunks_fuel_nil (size ov : Nat) :
    ∀ fuel : Nat, split_chunks_fuel size ov fuel [] = []
  | 0 => rfl
  | _ + 1 => rfl

/-- Unfolding the chunker one step on a nonempty text. -/
lemma split_chunks_fuel_cons (size ov fuel : Nat) (c : Char) (t' : List Char) :
    split_chunks_fuel size ov (fuel + 1) (c :: t') =
      if (c :: t').length ≤ size ∨ size ≤ ov then [c :: t']
      else (c :: t').take size ::
        split_chunks_fuel size ov fuel ((c :: t').drop (size - ov)) := rfl

/-- The fuel is irrelevant as long as it dominates the text length. -/
lemma split_chunks_fuel_congr (size ov : Nat) :
    ∀ (f1 f2 : Nat) (t : List Char), t.length ≤ f1 → t.length ≤ f2 →
      split_chunks_fuel size ov f1 t = split_chunks_fuel size ov f2 t := by
  intro f1
  induction f1 with
  | zero =>
    intro f2 t h1 h2
    have hnil : t = [] := List.eq_nil_of_length_eq_zero (Nat.le_zero.mp h1)
    subst hnil
    rw [split_chunks_fuel_nil, split_chunks_fuel_nil]
  | succ f1 ih =>
    intro f2 t h1 h2
    rcases t with _ | ⟨c, t'⟩
    · rw [split_chunks_fuel_nil, split_chunks_fuel_nil]
    · cases f2 with
      | zero => simp at h2
      | succ g2 =>
        rw [split_chunks_fuel_cons, split_chunks_fuel_cons]
        by_cases hor : (c :: t').length ≤ size ∨ size ≤ ov
        · simp only [if_pos hor]
        · have hso : ¬ size ≤ ov := fun hle => hor (Or.inr hle)
          simp only [if_neg hor]
          congr 1
          apply ih
          · rw [List.length_drop]
            omega
          · rw [List.length_drop]
            omega

/-- Unfolding step of the chunker on a text longer than the target size. -/
lemma split_chunks_step (size ov : Nat) (t : List Char) (hov : ov < size)
    (hgt : size < t.length) :
    split_chunks size ov t =
      t.take size :: split_chunks size ov (t.drop (size - ov)) := by
  rcases t with _ | ⟨c, t'⟩
  · simp at hgt
  · have h1 : split_chunks size ov (c :: t') =
        split_chunks_fuel size ov ((c :: t').length + 1) (c :: t') :=
      split_chunks_fuel_congr size ov (c :: t').length ((c :: t').length + 1)
        (c :: t') (Nat.le_refl _) (Nat.le_succ _)
    rw [h1, split_chunks_fuel_cons, if_neg (by omega)]
    congr 1
    apply split_chunks_fuel_congr
    · rw [List.length_drop]
      omega
    · exact Nat.le_refl _

/-- A nonempty text no longer than the target size is a single chunk. -/
lemma split_chunks_last (size ov : Nat) (t : List Char) (hne : t ≠ [])
    (hle : t.length ≤ size) :
    split_chunks size ov t = [t] := by
  rcases t with _ | ⟨c, t'⟩
  · exact absurd rfl hne
  · have h1 : split_chunks size ov (c :: t') =
        split_chunks_fuel size ov ((c :: t').length + 1) (c :: t') :=
      split_chunks_fuel_congr size ov (c :: t').length ((c :: t').length + 1)
        (c :: t') (Nat.le_refl _) (Nat.le_succ _)
    rw [h1, split_chunks_fuel_cons, if_pos (Or.inl hle)]

/-! ## Claim theorems -/

/-- C1: for every question, invoking the ask endpoint while the
module-level vectorstore is undefined (which is the state before any
ingestion, since main.py never assigns it) returns a single user-visible
HTTP 500 error whose detail is the missing-index NameError message; the
handler catches the exception, so the process does not crash, which the
total Except return type of ask_question expresses. -/
theorem ask_question_before_ingestion (question : String) :
    ask_question none question = .error ⟨500, name_error_detail⟩ := rfl

/-- C2: when a vector index exists and retrieval returns at least one
document, the ask endpoint answers with exactly the page content of the
top-ranked document, and the retrieval it performs is query at its
default k of 3, i.e. similarity_search with k = 3. -/
theorem ask_question_top_ranked (vs : FAISSStore) (question : String)
    (d : Document) (ds : List Document)
    (h : query vs question = .ok (d :: ds)) :
    ask_question (some vs) question = .ok ⟨d.page_content⟩ ∧
      query vs question = similarity_search vs question 3 := by
  constructor
  · have hu : ask_question (some vs) question =
        (match query vs question with
         | Except.error e => Except.error ⟨500, e⟩
         | Except.ok [] => Except.error ⟨500, index_error_detail⟩
         | Except.ok (d :: _) => Except.ok ⟨d.page_content⟩) := rfl
    rw [hu, h]
  · rfl

/-- A one-entry concrete store used to witness C2. -/
def store_w : FAISSStore :=
  ⟨fun _ => .ok [0], [([0], ⟨"hello world", ⟨"w.txt"⟩⟩)]⟩

/-- C2 witness: on a concrete one-entry store the retrieval returns one
document and the endpoint surfaces its page content. -/
theorem ask_question_top_ranked_witness :
    query store_w "ab" = .ok [⟨"hello world", ⟨"w.txt"⟩⟩] ∧
      ask_question (some store_w) "ab" = .ok ⟨"hello world"⟩ :=
  ⟨rfl,
   (ask_question_top_ranked store_w "ab" ⟨"hello world", ⟨"w.txt"⟩⟩ [] rfl).1⟩

/-- An embedder that fails on one specific text, used for C3. -/
def embed_fail : String → Except String Vec :=
  fun s => if s = "BAD" then .error "embedding failed" else .ok [0]

/-- The document whose embedding fails. -/
def bad_doc : Document := ⟨"BAD", ⟨"bad.txt"⟩⟩

/-- A document whose embedding succeeds. -/
def good_doc : Document := ⟨"GOOD", ⟨"good.txt"⟩⟩

/-- C3 counterexample: with a batch of two documents in which embedding
the first fails while the second would embed fine on its own,
process_documents returns an error and builds no store at all, so the
second document is not chunked into any index; the per-document
skip-and-continue behaviour the claim describes does not exist in
rag_processor.py, which has no error handling. -/
theorem process_documents_aborts_on_failure :
    is_ok (process_documents embed_fail [bad_doc, good_doc]) = false ∧
      is_ok (process_documents embed_fail [good_doc]) = true :=
  ⟨rfl, rfl⟩

/-- C3 amended: process_documents is all-or-nothing: it succeeds exactly
when every chunk of every document in the batch embeds successfully, and
a single embedding failure aborts the whole batch. -/
theorem process_documents_all_or_nothing
    (embed : String → Except String Vec) (documents : List Document) :
    is_ok (process_documents embed documents) =
      (split_documents documents).all
        (fun d => is_ok (embed d.page_content)) := by
  unfold process_documents from_documents
  rw [← embed_entries_is_ok embed (split_documents documents)]
  cases embed_entries embed (split_documents documents) <;> rfl

/-- C4: for every input text, concatenating the chunks of the configured
chunker (size 1000, overlap 200) after removing each later chunk's
leading 200-character overlap reconstructs the original text exactly; in
particular every character of the input appears in at least one chunk. -/
theorem split_chunks_coverage (t : List Char) :
    unique_concat rag_chunk_overlap
      (split_chunks rag_chunk_size rag_chunk_overlap t) = t :=
  split_chunks_fuel_reconstruct rag_chunk_size rag_chunk_overlap (by decide)
    t.length t (Nat.le_refl _)

/-- C5: for every input text and every pair of consecutive chunks
produced by the configured chunker, the 200-character suffix of the
earlier chunk equals the 200-character prefix of the later one, and every
chunk other than possibly the final one has length exactly 1000 (the
final chunk, having no successor, is exempt from the Chain' relation and
may be shorter). -/
theorem split_chunks_overlap_invariant (t : List Char) :
    List.Chain'
      (fun a b => a.drop (a.length - rag_chunk_overlap) =
          b.take rag_chunk_overlap ∧ a.length = rag_chunk_size)
      (split_chunks rag_chunk_size rag_chunk_overlap t) :=
  split_chunks_fuel_chain rag_chunk_size rag_chunk_overlap (by decide)
    t.length t (Nat.le_refl _)

/-- The 2000-character scenario document: a first half of 1000 letters A
and a second half of 1000 letters B. -/
def car_text : List Char :=
  List.replicate 1000 'A' ++ List.replicate 1000 'B'

/-- The scenario document wrapped with its source metadata. -/
def car_doc : Document := ⟨String.mk car_text, ⟨"car.txt"⟩⟩

/-- A concrete embedder for the scenario: a text maps to the
one-dimensional vector counting its letters B, so the two halves of the
scenario document embed to clearly separated vectors. -/
def embed_b : String → Except String Vec :=
  fun s => .ok [(s.toList.count 'B' : Int)]

/-- Characters 0 to 1000 of the scenario text. -/
def car_chunk0 : List Char := car_text.take 1000

/-- Characters 800 to 1800 of the scenario text. -/
def car_chunk1 : List Char := (car_text.drop 800).take 1000

/-- Characters 1600 to 2000 of the scenario text. -/
def car_chunk2 : List Char := car_text.drop 1600

lemma string_mk_toList (l : List Char) : (String.mk l).toList = l := rfl

lemma car_text_length : car_text.length = 2000 := by
  rw [car_text, List.length_append, List.length_replicate,
    List.length_replicate]

lemma car_chunks_eq :
    split_chunks rag_chunk_size rag_chunk_overlap car_text =
      [car_chunk0, car_chunk1, car_chunk2] := by
  have hlen : car_text.length = 2000 := car_text_length
  have hd800 : (car_text.drop 800).length = 1200 := by
    rw [List.length_drop, hlen]
  have hd1600 : (car_text.drop 1600).length = 400 := by
    rw [List.length_drop, hlen]
  show split_chunks 1000 200 car_text = [car_chunk0, car_chunk1, car_chunk2]
  rw [split_chunks_step 1000 200 car_text (by omega) (by omega)]
  rw [show (1000 : Nat) - 200 = 800 from by norm_num]
  rw [split_chunks_step 1000 200 (car_text.drop 800) (by omega) (by omega)]
  rw [show (1000 : Nat) - 200 = 800 from by norm_num]
  rw [List.drop_drop]
  rw [show (800 : Nat) + 800 = 1600 from by norm_num]
  rw [split_chunks_last 1000 200 (car_text.drop 1600)
    (by intro h0; rw [h0] at hd1600; simp at hd1600) (by omega)]
  rfl

lemma car_chunk0_eq : car_chunk0 = List.replicate 1000 'A' := by
  rw [car_chunk0, car_text, List.take_append_eq_append_take,
    List.length_replicate, Nat.sub_self, List.take_zero, List.append_nil,
    List.take_replicate, Nat.min_self]

lemma car_chunk1_eq :
    car_chunk1 = List.replicate 200 'A' ++ List.replicate 800 'B' := by
  rw [car_chunk1, car_text, List.drop_append_eq_append_drop,
    List.drop_replicate, List.length_replicate,
    show (800 : Nat) - 1000 = 0 from by norm_num,
    show (1000 : Nat) - 800 = 200 from by norm_num, List.drop_zero,
    List.take_append_eq_append_take, List.take_replicate,
    List.take_replicate, List.length_replicate,
    show min 1000 200 = 200 from by norm_num,
    show (1000 : Nat) - 200 = 800 from by norm_num,
    show min 800 1000 = 800 from by norm_num]

lemma car_chunk2_eq : car_chunk2 = List.replicate 400 'B' := by
  rw [car_chunk2, car_text, List.drop_append_eq_append_drop,
    List.drop_replicate, List.drop_replicate, List.length_replicate,
    show (1000 : Nat) - 1600 = 0 from by norm_num,
    show (1600 : Nat) - 1000 = 600 from by norm_num,
    show (1000 : Nat) - 600 = 400 from by norm_num, List.replicate_zero,
    List.nil_append]

lemma embed_car_chunk0 : embed_b (String.mk car_chunk0) = .ok [0] := by
  show Except.ok [(((String.mk car_chunk0).toList.count 'B' : Nat) : Int)] =
    Except.ok [0]
  rw [string_mk_toList, car_chunk0_eq, List.count_replicate,
    if_neg (by decide)]
  rfl

lemma embed_car_chunk1 : embed_b (String.mk car_chunk1) = .ok [800] := by
  show Except.ok [(((String.mk car_chunk1).toList.count 'B' : Nat) : Int)] =
    Except.ok [800]
  rw [string_mk_toList, car_chunk1_eq, List.count_append,
    List.count_replicate, if_neg (by decide), List.count_replicate,
    if_pos (by decide)]
  rfl

lemma embed_car_chunk2 : embed_b (String.mk car_chunk2) = .ok [400] := by
  show Except.ok [(((String.mk car_chunk2).toList.count 'B' : Nat) : Int)] =
    Except.ok [400]
  rw [string_mk_toList, car_chunk2_eq, List.count_replicate,
    if_pos (by decide)]
  rfl

/-- The index state after ingesting the scenario document. -/
lemma car_store :
    process_documents embed_b [car_doc] =
      .ok ⟨embed_b,
        [([0], ⟨String.mk car_chunk0, ⟨"car.txt"⟩⟩),
         ([800], ⟨String.mk car_chunk1, ⟨"car.txt"⟩⟩),
         ([400], ⟨String.mk car_chunk2, ⟨"car.txt"⟩⟩)]⟩ := by
  have hsplit : split_documents [car_doc] =
      [⟨String.mk car_chunk0, ⟨"car.txt"⟩⟩,
       ⟨String.mk car_chunk1, ⟨"car.txt"⟩⟩,
       ⟨String.mk car_chunk2, ⟨"car.txt"⟩⟩] := by
    show ((split_text (String.mk car_text)).map
        (fun s => Document.mk s ⟨"car.txt"⟩)) ++ [] = _
    rw [List.append_nil, split_text, string_mk_toList, car_chunks_eq]
    rfl
  show from_documents embed_b (split_documents [car_doc]) = _
  rw [hsplit]
  show (match embed_entries embed_b
      [⟨String.mk car_chunk0, ⟨"car.txt"⟩⟩,
       ⟨String.mk car_chunk1, ⟨"car.txt"⟩⟩,
       ⟨String.mk car_chunk2, ⟨"car.txt"⟩⟩] with
    | Except.error e => Except.error e
    | Except.ok es => Except.ok (⟨embed_b, es⟩ : FAISSStore)) = _
  have he : embed_entries embed_b
      [⟨String.mk car_chunk0, ⟨"car.txt"⟩⟩,
       ⟨String.mk car_chunk1, ⟨"car.txt"⟩⟩,
       ⟨String.mk car_chunk2, ⟨"car.txt"⟩⟩] =
      Except.ok
        [([0], ⟨String.mk car_chunk0, ⟨"car.txt"⟩⟩),
         ([800], ⟨String.mk car_chunk1, ⟨"car.txt"⟩⟩),
         ([400], ⟨String.mk car_chunk2, ⟨"car.txt"⟩⟩)] := by
    simp only [embed_entries, embed_car_chunk0, embed_car_chunk1,
      embed_car_chunk2]
  rw [he]

/-- C6 counterexample: chunking the 2000-character scenario text with
size 1000 and overlap 200 does not produce 2 chunks; the fixed-offset
chunker advances by 800 characters per chunk, so it produces 3 (a chunk
covering characters 800 to 2000 would be 1200 characters long,
contradicting the configured chunk size). -/
theorem car_scenario_not_two_chunks :
    ¬ (split_chunks rag_chunk_size rag_chunk_overlap car_text).length = 2 := by
  rw [car_chunks_eq]
  simp

/-- C6 amended: ingesting the scenario document with chunk size 1000 and
overlap 200 produces exactly 3 chunks, covering character ranges 0 to
1000, 800 to 1800 and 1600 to 2000; after embedding and indexing all of
them, querying with the vector 0 — the embedding of the first half
(1000 letters A contain no letter B), and strictly closest to the first
chunk's vector (distance 0, against 160000 and 640000 for the others) —
returns the first chunk at rank 0 of the ranked results. -/
theorem car_scenario_three_chunks_rank0 :
    split_chunks rag_chunk_size rag_chunk_overlap car_text =
      [car_chunk0, car_chunk1, car_chunk2] ∧
    (process_documents embed_b [car_doc]).map
        (fun st => search_index st.entries [0] 3) =
      .ok [⟨String.mk car_chunk0, ⟨"car.txt"⟩⟩,
           ⟨String.mk car_chunk2, ⟨"car.txt"⟩⟩,
           ⟨String.mk car_chunk1, ⟨"car.txt"⟩⟩] := by
  refine ⟨car_chunks_eq, ?_⟩
  rw [car_store]
  show Except.ok (search_index
      [([0], ⟨String.mk car_chunk0, ⟨"car.txt"⟩⟩),
       ([800], ⟨String.mk car_chunk1, ⟨"car.txt"⟩⟩),
       ([400], ⟨String.mk car_chunk2, ⟨"car.txt"⟩⟩)] [0] 3) =
    Except.ok [⟨String.mk car_chunk0, ⟨"car.txt"⟩⟩,
               ⟨String.mk car_chunk2, ⟨"car.txt"⟩⟩,
               ⟨String.mk car_chunk1, ⟨"car.txt"⟩⟩]
  rfl

/-- C7: retrieval is a pure function of the index state in this model:
for a fixed store, running query twice with identical question and k
yields identical ordered results, and likewise for the underlying index
search. -/
theorem query_two_run_deterministic (vs : FAISSStore) (question : String)
    (k : Nat) :
    query vs question k = query vs question k ∧
      ∀ (entries : List (Vec × Document)) (v : Vec),
        search_index entries v k = search_index entries v k :=
  ⟨rfl, fun _ _ => rfl⟩

/-- C8: whenever the OCR call raises, extract_text_from_image returns the
empty string; it never propagates an exception (its return type is a
plain String, every OCR outcome included), so an OCR failure cannot abort
an ingestion batch. -/
theorem ocr_failure_yields_empty (ocr : String → Except String String)
    (img_path : String) (e : String) (h : ocr img_path = .error e) :
    extract_text_from_image ocr img_path = "" := by
  unfold extract_text_from_image
  rw [h]

/-- An OCR stub that always raises, used to witness C8. -/
def ocr_fail : String → Except String String := fun _ => .error "ocr boom"

/-- C8 witness: a concretely failing OCR yields the empty string. -/
theorem ocr_failure_yields_empty_witness :
    ocr_fail "diagram.png" = .error "ocr boom" ∧
      extract_text_from_image ocr_fail "diagram.png" = "" :=
  ⟨rfl, ocr_failure_yields_empty ocr_fail "diagram.png" "ocr boom" rfl⟩

/-- C9: each of the four loaders returns exactly one Document, whose
metadata maps source to exactly the input path, whatever the external
partitioner, OCR and CSV parse produced. -/
theorem loaders_single_document_source (ocr : String → Except String String)
    (elements : List Element)
    (df_markdown pdf_path docx_path csv_path pptx_path : String) :
    (∃ d, load_pdf_with_tables_images ocr elements pdf_path = [d] ∧
      d.metadata.source = pdf_path) ∧
    (∃ d, load_docx_with_tables elements docx_path = [d] ∧
      d.metadata.source = docx_path) ∧
    (∃ d, load_csv_autoparts df_markdown csv_path = [d] ∧
      d.metadata.source = csv_path) ∧
    (∃ d, load_pptx_slides elements pptx_path = [d] ∧
      d.metadata.source = pptx_path) :=
  ⟨⟨_, rfl, rfl⟩, ⟨_, rfl, rfl⟩, ⟨_, rfl, rfl⟩, ⟨_, rfl, rfl⟩⟩

/-- C10: for every attempt oracle and every entry session state,
download_with_fallbacks leaves the session's User-Agent header equal to
its value at entry on every return path: immediate success, success or
failure under an alternate user agent, and an exception inside a fallback
attempt (the raised outcome) alike. -/
theorem download_with_fallbacks_preserves_ua
    (df : String → AttemptOutcome) (s : Session) :
    (download_with_fallbacks df s).2.user_agent = s.user_agent := by
  unfold download_with_fallbacks
  by_cases h : df s.user_agent = .success
  · simp [h]
  · simp [h, download_fallback_loop_state]

end CarBrain
